import Mathlib

/-!
Shallow embedding of the littlefoot footnote-popover engine
(`src/dom/layout.ts`, `src/dom/scroll.ts`, `src/dom/footnote.ts`,
`src/dom/element.ts`, and the event-coordination module `addListeners`),
with theorems settling the specification claims about it.

DOM `classList` state is modelled as a `List String`; geometry readings
(bounding rectangles, offsets, window sizes) are modelled as rationals and
gathered into explicit environment records, since the TypeScript code reads
them from the live DOM at call time.
-/

namespace Littlefoot

/-- `element.ts` `addClass`: `element.classList.add(className)` — appends the
class when absent, keeps the list unchanged when already present. -/
def addClass (cs : List String) (c : String) : List String :=
  if c ∈ cs then cs else cs ++ [c]

/-- `element.ts` `removeClass`: `element.classList.remove(className)`. -/
def removeClass (cs : List String) (c : String) : List String :=
  cs.filter (fun x => x ≠ c)

/-- `element.ts` `hasClass`: `element.classList.contains(className)`. -/
def hasClass (cs : List String) (c : String) : Bool :=
  decide (c ∈ cs)

/-- `layout.ts` `Position`: the vertical placement decision. -/
inductive Position
  | above
  | below
deriving DecidableEq, Repr

/-- String form of a `Position`, as interpolated into the `is-` class names. -/
def Position.str : Position → String
  | .above => "above"
  | .below => "below"

/-- The DOM readings `layout.ts` makes at call time: button bounding rect and
offsets, popover offset height, the popover's parsed `marginTop`, and window
dimensions.  `buttonMarginLeft` stands for the parsed `marginLeft` style of the
button (read with `parseFloat` in `getLeftRelative` and `parseInt` in
`getLeftInPixels`; both yield the style's numeric value). -/
structure LayoutEnv where
  buttonTop : ℚ
  buttonOffsetHeight : ℚ
  buttonOffsetWidth : ℚ
  buttonRectLeft : ℚ
  buttonMarginLeft : ℚ
  popoverOffsetHeight : ℚ
  marginSize : ℚ
  windowInnerWidth : ℚ
  windowInnerHeight : ℚ
deriving DecidableEq, Repr

/-- `layout.ts` `getLeftRelative`: the button's horizontal centre as a fraction
of the window width. -/
def getLeftRelative (env : LayoutEnv) : ℚ :=
  let width := env.buttonOffsetWidth - env.buttonMarginLeft
  let left := env.buttonRectLeft + width / 2
  left / env.windowInnerWidth

/-- `layout.ts` `getLeftInPixels`: pixel offset of the popover relative to its
button; `maxWidth` is `content.offsetWidth`. -/
def getLeftInPixels (env : LayoutEnv) (contentOffsetWidth : ℚ) : ℚ :=
  -(getLeftRelative env) * contentOffsetWidth +
    env.buttonMarginLeft + env.buttonOffsetWidth / 2

/-- `layout.ts` `getFootnotePosition`: the vertical placement decision and the
available room on the chosen side. -/
def getFootnotePosition (env : LayoutEnv) : Position × ℚ :=
  let popoverHeight := 2 * env.marginSize + env.popoverOffsetHeight
  let roomAbove := env.buttonTop + env.buttonOffsetHeight / 2
  let roomBelow := env.windowInnerHeight - roomAbove
  if roomBelow ≥ popoverHeight ∨ roomBelow ≥ roomAbove then
    (Position.below, roomBelow - env.marginSize - 15)
  else
    (Position.above, roomAbove - env.marginSize - 15)

/-- Claim-side abbreviation: required height = rendered popover height plus
twice the vertical margin (the code's `popoverHeight` local). -/
def requiredHeight (env : LayoutEnv) : ℚ :=
  2 * env.marginSize + env.popoverOffsetHeight

/-- Claim-side abbreviation: room above = distance from the viewport top to the
button's vertical centre (the code's `roomAbove` local). -/
def roomAbove (env : LayoutEnv) : ℚ :=
  env.buttonTop + env.buttonOffsetHeight / 2

/-- Claim-side abbreviation: room below = remaining viewport height (the code's
`roomBelow` local). -/
def roomBelow (env : LayoutEnv) : ℚ :=
  env.windowInnerHeight - roomAbove env

/-- The mutable style state of the popover element that `repositionPopover`
touches: its class list and its `style.transformOrigin`. -/
structure PopoverStyleState where
  classes : List String
  transformOrigin : String
deriving DecidableEq, Repr

/-- The transform origin string `repositionPopover` writes when the placement
decision changes. -/
def transformOriginFor (env : LayoutEnv) (next : Position) : String :=
  (toString (getLeftRelative env * 100) ++ "%") ++ " " ++
    (if next = Position.above then "100%" else "0")

/-- `layout.ts` `repositionPopover`: recompute the placement; when it differs
from `current`, swap the two placement classes and rewrite the transform
origin; always return the new position and available room. -/
def repositionPopover (env : LayoutEnv) (s : PopoverStyleState)
    (current : Position) : PopoverStyleState × Position × ℚ :=
  let r := getFootnotePosition env
  let next := r.1
  let room := r.2
  if current ≠ next then
    ({ classes := addClass (removeClass s.classes ("is-" ++ current.str))
          ("is-" ++ next.str),
       transformOrigin := transformOriginFor env next }, next, room)
  else
    (s, next, room)

/-- Sample geometry: room above = room below = 100 (a tie), popover taller
than either side. -/
def sampleLayoutEnv : LayoutEnv :=
  { buttonTop := 95
    buttonOffsetHeight := 10
    buttonOffsetWidth := 20
    buttonRectLeft := 40
    buttonMarginLeft := 0
    popoverOffsetHeight := 300
    marginSize := 5
    windowInnerWidth := 1000
    windowInnerHeight := 200 }

/-- `scroll.ts` `CLASS_FULLY_SCROLLED`. -/
def CLASS_FULLY_SCROLLED : String := "is-fully-scrolled"

/-- The scroll readings of the content region at wheel-event time:
`scrollTop`, `clientHeight` and `scrollHeight`. -/
structure ScrollMetrics where
  scrollTop : ℚ
  clientHeight : ℚ
  scrollHeight : ℚ
deriving DecidableEq, Repr

/-- `scroll.ts` `scrollHandler` for a wheel event with vertical delta
`deltaY` over a (present) content region: with `delta = -deltaY`, first
remove the fully-scrolled class from the popover when `delta > 0`, then add
it when `delta ≤ 0` and `delta < clientHeight + scrollTop - scrollHeight`.
The function returns the popover's updated class list. -/
def scrollHandler (m : ScrollMetrics) (deltaY : ℚ)
    (popoverClasses : List String) : List String :=
  let delta := -deltaY
  let cs :=
    if delta > 0 then removeClass popoverClasses CLASS_FULLY_SCROLLED
    else popoverClasses
  if delta ≤ 0 ∧ delta < m.clientHeight + m.scrollTop - m.scrollHeight then
    addClass cs CLASS_FULLY_SCROLLED
  else
    cs

/-- `footnote.ts` class constants. -/
def CLASS_ACTIVE : String := "is-active"

/-- `footnote.ts` transient-transition class. -/
def CLASS_CHANGING : String := "is-changing"

/-- `footnote.ts` scroll-affordance class. -/
def CLASS_SCROLLABLE : String := "is-scrollable"

/-- The observable DOM state one footnote's controller touches.
`popoverNode` is the identity of the (single, never recreated) popover
element; `popoverAttached` models `document.body.contains(popover)`;
`popoverAfterButton` records that the popover sits immediately after the
button; `maxHeight` and `position` are the two closure variables of
`footnoteActions`. -/
structure FootnoteState where
  popoverNode : Nat
  buttonClasses : List String
  popoverClasses : List String
  ariaExpanded : String
  popoverAttached : Bool
  popoverAfterButton : Bool
  popoverMaxWidth : Option ℚ
  popoverLeft : Option ℚ
  popoverTransformOrigin : String
  wrapperMaxWidth : Option ℚ
  contentMaxHeightStyle : Option ℚ
  contentTabindex : Option String
  tooltipLeft : Option ℚ
  maxHeight : ℚ
  position : Position
deriving DecidableEq, Repr

/-- DOM readings the footnote operations make at call time:
`document.body.clientWidth`, the measured `getMaxHeight(content)`, the layout
geometry, `content.scrollHeight`, `content.offsetWidth`, and whether the
popover contains a tooltip element. -/
structure FootnoteEnv where
  bodyClientWidth : ℚ
  contentMaxHeight : ℚ
  layout : LayoutEnv
  contentScrollHeight : ℚ
  contentOffsetWidth : ℚ
  tooltipPresent : Bool
deriving Repr

/-- One observable side effect of `activate`, in the order performed. -/
inductive Effect
  | setButtonAttribute (attr val : String)
  | addButtonClass (c : String)
  | insertPopoverAfterButton
  | setPopoverMaxWidth (w : ℚ)
  | measureMaxHeight (h : ℚ)
  | invokeCallback
deriving DecidableEq, Repr

/-- Perform a state update while recording its effect at the end of the
trace. -/
def emit (e : Effect) (f : FootnoteState → FootnoteState)
    (p : FootnoteState × List Effect) : FootnoteState × List Effect :=
  (f p.1, p.2 ++ [e])

/-- `footnote.ts` `activate(onActivate)`: set `aria-expanded`, add the
changing and active classes to the button, insert the popover immediately
after the button, cap the popover's max-width at the body width, measure and
store the content's max-height, and finally invoke the optional callback
synchronously.  `hasCallback` records whether `onActivate` was supplied. -/
def activate (env : FootnoteEnv) (hasCallback : Bool) (s : FootnoteState) :
    FootnoteState × List Effect :=
  let p0 := (s, ([] : List Effect))
  let p1 := emit (.setButtonAttribute "aria-expanded" "true")
    (fun t => { t with ariaExpanded := "true" }) p0
  let p2 := emit (.addButtonClass CLASS_CHANGING)
    (fun t => { t with buttonClasses := addClass t.buttonClasses CLASS_CHANGING }) p1
  let p3 := emit (.addButtonClass CLASS_ACTIVE)
    (fun t => { t with buttonClasses := addClass t.buttonClasses CLASS_ACTIVE }) p2
  let p4 := emit .insertPopoverAfterButton
    (fun t => { t with popoverAttached := true, popoverAfterButton := true }) p3
  let p5 := emit (.setPopoverMaxWidth env.bodyClientWidth)
    (fun t => { t with popoverMaxWidth := some env.bodyClientWidth }) p4
  let p6 := emit (.measureMaxHeight env.contentMaxHeight)
    (fun t => { t with maxHeight := env.contentMaxHeight }) p5
  if hasCallback then emit .invokeCallback (fun t => t) p6 else p6

/-- `footnote.ts` `dismiss(onDismiss)`: set `aria-expanded=false`, add the
changing class, remove the active class from button and popover.  The popover
stays attached. -/
def dismiss (s : FootnoteState) : FootnoteState :=
  { s with
    ariaExpanded := "false"
    buttonClasses :=
      removeClass (addClass s.buttonClasses CLASS_CHANGING) CLASS_ACTIVE
    popoverClasses := removeClass s.popoverClasses CLASS_ACTIVE }

/-- `footnote.ts` `isActive`. -/
def isActive (s : FootnoteState) : Bool :=
  hasClass s.buttonClasses CLASS_ACTIVE

/-- `footnote.ts` `isReady`. -/
def isReady (s : FootnoteState) : Bool :=
  !hasClass s.buttonClasses CLASS_CHANGING

/-- `footnote.ts` `ready`: add the active class to the popover, clear the
changing class on the button. -/
def ready (s : FootnoteState) : FootnoteState :=
  { s with
    popoverClasses := addClass s.popoverClasses CLASS_ACTIVE
    buttonClasses := removeClass s.buttonClasses CLASS_CHANGING }

/-- `footnote.ts` `remove`: detach the popover and clear the changing class
on the button. -/
def remove (s : FootnoteState) : FootnoteState :=
  { s with
    popoverAttached := false
    popoverAfterButton := false
    buttonClasses := removeClass s.buttonClasses CLASS_CHANGING }

/-- `footnote.ts` `isMounted`: `document.body.contains(popover)`. -/
def isMounted (s : FootnoteState) : Bool :=
  s.popoverAttached

/-- `footnote.ts` `reposition`: when mounted, delegate to
`repositionPopover`, store the new position, clip the content height to
`min(maxHeight, height)`, and toggle the scrollable class and `tabindex`
depending on whether the content overflows the popover. -/
def reposition (env : FootnoteEnv) (s : FootnoteState) : FootnoteState :=
  if isMounted s then
    let r := repositionPopover env.layout
      ⟨s.popoverClasses, s.popoverTransformOrigin⟩ s.position
    let s1 := { s with
      popoverClasses := r.1.classes
      popoverTransformOrigin := r.1.transformOrigin
      position := r.2.1
      contentMaxHeightStyle := some (min s.maxHeight r.2.2) }
    if env.layout.popoverOffsetHeight < env.contentScrollHeight then
      { s1 with
        popoverClasses := addClass s1.popoverClasses CLASS_SCROLLABLE
        contentTabindex := some "0" }
    else
      { s1 with
        popoverClasses := removeClass s1.popoverClasses CLASS_SCROLLABLE
        contentTabindex := none }
  else s

/-- `footnote.ts` `resize`: when mounted, set the popover's left offset,
cap the wrapper's width at the content width, and reposition the tooltip
when present. -/
def resize (env : FootnoteEnv) (s : FootnoteState) : FootnoteState :=
  if isMounted s then
    let s1 := { s with
      popoverLeft := some (getLeftInPixels env.layout env.contentOffsetWidth)
      wrapperMaxWidth := some env.contentOffsetWidth }
    if env.tooltipPresent then
      { s1 with tooltipLeft := some (getLeftRelative env.layout * 100) }
    else s1
  else s

/-- One controller call in an interleaving of `activate`, `dismiss` and
`ready`. -/
inductive FOp
  | act
  | dis
  | rdy
deriving DecidableEq, Repr

/-- Apply one controller call to the footnote state. -/
def applyOp (env : FootnoteEnv) (cb : Bool) (s : FootnoteState) :
    FOp → FootnoteState
  | .act => (activate env cb s).1
  | .dis => dismiss s
  | .rdy => ready s

/-- Run a sequence of controller calls left to right. -/
def run (env : FootnoteEnv) (cb : Bool) (ops : List FOp)
    (s : FootnoteState) : FootnoteState :=
  ops.foldl (applyOp env cb) s

/-- Whether the most recent `activate`/`dismiss` in the sequence is an
`activate`; `b` is the value before the sequence, returned when the sequence
contains neither. -/
def lastActivate : List FOp → Bool → Bool
  | [], b => b
  | FOp.act :: ops, _ => lastActivate ops true
  | FOp.dis :: ops, _ => lastActivate ops false
  | FOp.rdy :: ops, b => lastActivate ops b

/-- Sample footnote environment readings. -/
def sampleFootnoteEnv : FootnoteEnv :=
  { bodyClientWidth := 800
    contentMaxHeight := 150
    layout := sampleLayoutEnv
    contentScrollHeight := 250
    contentOffsetWidth := 300
    tooltipPresent := true }

/-- Sample footnote state whose popover is detached from the document. -/
def sampleDetachedState : FootnoteState :=
  { popoverNode := 7
    buttonClasses := []
    popoverClasses := []
    ariaExpanded := "false"
    popoverAttached := false
    popoverAfterButton := false
    popoverMaxWidth := none
    popoverLeft := none
    popoverTransformOrigin := ""
    wrapperMaxWidth := none
    contentMaxHeightStyle := none
    contentTabindex := none
    tooltipLeft := none
    maxHeight := 0
    position := Position.above }

/-- A DOM element as seen by the `addListeners` handlers: whether it carries
the `data-footnote-button` marker, the `data-footnote-popover` marker, and
its `data-footnote-id` value when present. -/
structure DomElem where
  hasButtonMarker : Bool
  hasPopoverMarker : Bool
  footnoteId : Option String
deriving DecidableEq, Repr

/-- `Element.closest` along the chain of the event target followed by its
ancestors (target first): the nearest element satisfying the predicate. -/
def closestBy (p : DomElem → Bool) : List DomElem → Option DomElem
  | [] => none
  | e :: rest => if p e then some e else closestBy p rest

/-- The action vocabulary of the use-cases registry the event layer
invokes. -/
inductive RegAction
  | toggle (id : String)
  | hover (id : String)
  | unhover (id : String)
  | dismissAll
  | touchOutside
  | repositionAll
  | resizeAll
deriving DecidableEq, Repr

/-- `addListeners`' `toggleOnTouch` handler for a `touchend`/`click` event
whose target's self-and-ancestor chain is `chain`: look up the closest
element with the button marker and read its footnote id; with an id, prevent
default and toggle that footnote; otherwise, when the target is not inside
any popover, signal touch-outside.  Returns the invoked registry actions and
whether the event's default action was suppressed. -/
def toggleOnTouch (chain : List DomElem) : List RegAction × Bool :=
  let element := closestBy (fun e => e.hasButtonMarker) chain
  let id := Option.bind element (fun e => e.footnoteId)
  match id with
  | some i => ([RegAction.toggle i], true)
  | none =>
    if (closestBy (fun e => e.hasPopoverMarker) chain).isSome then ([], false)
    else ([RegAction.touchOutside], false)

/-- State of the listener group registered by one `addListeners` call,
restricted to the throttled window-scroll path.  `aborted` records that the
teardown function has run (`controller.abort()`), which detaches the
document/window listeners; `inWindow` and `trailingPending` are the internal
state of the 16ms throttle wrapped around `useCases.repositionAll`; `calls`
lists every registry invocation in order and `callsAfterTeardown` those
issued after teardown. -/
structure ListenerSystem where
  aborted : Bool
  inWindow : Bool
  trailingPending : Bool
  calls : List String
  callsAfterTeardown : List String
deriving DecidableEq, Repr

/-- The state right after `addListeners` returns. -/
def initSystem : ListenerSystem :=
  { aborted := false
    inWindow := false
    trailingPending := false
    calls := []
    callsAfterTeardown := [] }

/-- Record an invocation of a registry action. -/
def invokeAction (name : String) (s : ListenerSystem) : ListenerSystem :=
  { s with
    calls := s.calls ++ [name]
    callsAfterTeardown :=
      if s.aborted then s.callsAfterTeardown ++ [name]
      else s.callsAfterTeardown }

/-- External occurrences driving the listener group: a window `scroll` event
being delivered, the teardown function running, and the throttle's pending
16ms timer firing. -/
inductive SysEvent
  | scroll
  | teardown
  | timerFire
deriving DecidableEq, Repr

/-- Modelled from the spec: the `@pacote/throttle` primitive wrapped around
`useCases.repositionAll` is not under `src/`; per the spec it limits
invocations to one per 16ms window, preserving the latest call and
guaranteeing a trailing invocation — scheduled on a timer — when a call lands
inside the window, and it does not itself observe the abort signal.  A
`scroll` event reaching a live (non-aborted) listener invokes the action
immediately outside a throttle window and otherwise schedules the trailing
call; the teardown function runs `controller.abort()` and nothing else, so
the timer state is untouched; when the timer fires, a pending trailing call
invokes the action regardless of `aborted`. -/
def stepSystem (s : ListenerSystem) : SysEvent → ListenerSystem
  | .scroll =>
    if s.aborted then s
    else if !s.inWindow then invokeAction "repositionAll" { s with inWindow := true }
    else { s with trailingPending := true }
  | .teardown => { s with aborted := true }
  | .timerFire =>
    if s.trailingPending then
      invokeAction "repositionAll"
        { s with trailingPending := false, inWindow := false }
    else { s with inWindow := false }

/-- Run the listener group from its initial state over a list of
occurrences. -/
def runSystem (evs : List SysEvent) : ListenerSystem :=
  evs.foldl stepSystem initSystem

end Littlefoot

namespace Littlefoot

theorem hasClass_addClass_self (cs : List String) (c : String) :
    hasClass (addClass cs c) c = true := by
  simp only [hasClass, addClass]
  split <;> simp_all

theorem hasClass_removeClass_self (cs : List String) (c : String) :
    hasClass (removeClass cs c) c = false := by
  simp [hasClass, removeClass]

theorem hasClass_removeClass_ne (cs : List String) {c d : String} (h : c ≠ d) :
    hasClass (removeClass cs d) c = hasClass cs c := by
  simp [hasClass, removeClass, List.mem_filter, h]

theorem hasClass_addClass_ne (cs : List String) {c d : String} (h : c ≠ d) :
    hasClass (addClass cs d) c = hasClass cs c := by
  simp only [hasClass, addClass]
  split <;> simp_all

/-- The first component of `getFootnotePosition` written through the claim-side
abbreviations. -/
theorem getFootnotePosition_fst (env : LayoutEnv) :
    (getFootnotePosition env).1 =
      if roomBelow env ≥ requiredHeight env ∨ roomBelow env ≥ roomAbove env
      then Position.below else Position.above := by
  simp only [getFootnotePosition, requiredHeight, roomAbove, roomBelow]
  split <;> rfl

/-- The room returned by `getFootnotePosition` is the chosen side's room minus
the margin minus 15. -/
theorem getFootnotePosition_snd (env : LayoutEnv) :
    (getFootnotePosition env).2 =
      (if (getFootnotePosition env).1 = Position.below then roomBelow env
       else roomAbove env) - env.marginSize - 15 := by
  simp only [getFootnotePosition, roomAbove, roomBelow]
  split <;> simp

end Littlefoot

/-- C4: with `delta = -deltaY`, a wheel event removes the fully-scrolled class
unconditionally when `delta > 0`, sets it exactly when `delta ≤ 0` and
`delta < clientHeight + scrollTop - scrollHeight`, and otherwise leaves it
unchanged; at `scrollTop=0, scrollHeight=300, clientHeight=200` a `deltaY=50`
event leaves the class unset, the same event at `scrollTop=100` sets it, and
a subsequent `deltaY<0` event clears it. -/
theorem Littlefoot.C4_scroll_boundary (m : Littlefoot.ScrollMetrics)
    (deltaY : ℚ) (cs : List String) :
    (-deltaY > 0 →
      Littlefoot.hasClass (Littlefoot.scrollHandler m deltaY cs)
        Littlefoot.CLASS_FULLY_SCROLLED = false) ∧
    (-deltaY ≤ 0 ∧ -deltaY < m.clientHeight + m.scrollTop - m.scrollHeight →
      Littlefoot.hasClass (Littlefoot.scrollHandler m deltaY cs)
        Littlefoot.CLASS_FULLY_SCROLLED = true) ∧
    (-deltaY ≤ 0 ∧ ¬(-deltaY < m.clientHeight + m.scrollTop - m.scrollHeight) →
      Littlefoot.hasClass (Littlefoot.scrollHandler m deltaY cs)
        Littlefoot.CLASS_FULLY_SCROLLED =
        Littlefoot.hasClass cs Littlefoot.CLASS_FULLY_SCROLLED) ∧
    Littlefoot.hasClass
      (Littlefoot.scrollHandler ⟨0, 200, 300⟩ 50 [])
      Littlefoot.CLASS_FULLY_SCROLLED = false ∧
    Littlefoot.hasClass
      (Littlefoot.scrollHandler ⟨100, 200, 300⟩ 50 [])
      Littlefoot.CLASS_FULLY_SCROLLED = true ∧
    Littlefoot.hasClass
      (Littlefoot.scrollHandler ⟨100, 200, 300⟩ (-10)
        [Littlefoot.CLASS_FULLY_SCROLLED])
      Littlefoot.CLASS_FULLY_SCROLLED = false := by
  refine ⟨?_, ?_, ?_, ?_, ?_, ?_⟩
  · intro h
    have h2 : ¬(-deltaY ≤ 0) := not_le.mpr h
    simp only [Littlefoot.scrollHandler, if_pos h]
    rw [if_neg (by tauto)]
    exact Littlefoot.hasClass_removeClass_self _ _
  · intro h
    simp only [Littlefoot.scrollHandler, if_pos h]
    exact Littlefoot.hasClass_addClass_self _ _
  · intro h
    have h1 : ¬(-deltaY > 0) := not_lt.mpr h.1
    simp only [Littlefoot.scrollHandler, if_neg h1]
    rw [if_neg (by tauto)]
  · norm_num [Littlefoot.scrollHandler, Littlefoot.hasClass,
      Littlefoot.CLASS_FULLY_SCROLLED]
  · norm_num [Littlefoot.scrollHandler, Littlefoot.hasClass,
      Littlefoot.addClass, Littlefoot.CLASS_FULLY_SCROLLED]
  · norm_num [Littlefoot.scrollHandler, Littlefoot.hasClass,
      Littlefoot.removeClass, Littlefoot.CLASS_FULLY_SCROLLED]

/-- Witness for C4: a downward wheel event (`deltaY = 50`, so `delta = -50`)
at the bottom (`scrollTop = 100`) sets the fully-scrolled class. -/
theorem Littlefoot.C4_scroll_boundary_witness :
    Littlefoot.hasClass
      (Littlefoot.scrollHandler ⟨100, 200, 300⟩ 50 [])
      Littlefoot.CLASS_FULLY_SCROLLED = true :=
  (Littlefoot.C4_scroll_boundary ⟨100, 200, 300⟩ 50 []).2.1
    (by norm_num)

/-- C1: the vertical placement decision returns `below` exactly when
room-below ≥ required height (popover height + 2·margin) or
room-below ≥ room-above, and `above` otherwise; ties on either comparison
give `below`; and the decision is a function of (room-below, room-above,
required height) only. -/
theorem Littlefoot.C1_vertical_placement (env : Littlefoot.LayoutEnv) :
    ((Littlefoot.getFootnotePosition env).1 = Littlefoot.Position.below ↔
      Littlefoot.roomBelow env ≥ Littlefoot.requiredHeight env ∨
        Littlefoot.roomBelow env ≥ Littlefoot.roomAbove env) ∧
    (Littlefoot.roomBelow env = Littlefoot.roomAbove env →
      (Littlefoot.getFootnotePosition env).1 = Littlefoot.Position.below) ∧
    (Littlefoot.roomBelow env = Littlefoot.requiredHeight env →
      (Littlefoot.getFootnotePosition env).1 = Littlefoot.Position.below) ∧
    (∀ env2 : Littlefoot.LayoutEnv,
      Littlefoot.roomBelow env = Littlefoot.roomBelow env2 →
      Littlefoot.roomAbove env = Littlefoot.roomAbove env2 →
      Littlefoot.requiredHeight env = Littlefoot.requiredHeight env2 →
      (Littlefoot.getFootnotePosition env).1 =
        (Littlefoot.getFootnotePosition env2).1) := by
  refine ⟨?_, ?_, ?_, ?_⟩
  · rw [Littlefoot.getFootnotePosition_fst]
    split <;> simp_all
  · intro h
    rw [Littlefoot.getFootnotePosition_fst, if_pos (Or.inr (le_of_eq h.symm))]
  · intro h
    rw [Littlefoot.getFootnotePosition_fst, if_pos (Or.inl (le_of_eq h.symm))]
  · intro env2 h1 h2 h3
    rw [Littlefoot.getFootnotePosition_fst, Littlefoot.getFootnotePosition_fst,
      h1, h2, h3]

/-- Witness for C1: at the sample geometry room-below equals room-above (both
100) while the required height (310) exceeds room-below, and the decision is
`below`. -/
theorem Littlefoot.C1_vertical_placement_witness :
    Littlefoot.roomBelow Littlefoot.sampleLayoutEnv =
      Littlefoot.roomAbove Littlefoot.sampleLayoutEnv ∧
    (Littlefoot.getFootnotePosition Littlefoot.sampleLayoutEnv).1 =
      Littlefoot.Position.below :=
  ⟨by norm_num [Littlefoot.roomBelow, Littlefoot.roomAbove,
      Littlefoot.sampleLayoutEnv],
   (Littlefoot.C1_vertical_placement Littlefoot.sampleLayoutEnv).2.1
     (by norm_num [Littlefoot.roomBelow, Littlefoot.roomAbove,
        Littlefoot.sampleLayoutEnv])⟩

/-- C2: when the freshly computed decision equals the previous position,
`repositionPopover` leaves the popover's classes and transform origin
untouched and returns the unchanged position; the returned room is always the
chosen side's room minus the margin minus 15; and only when the decision
differs are the two placement classes swapped and the transform origin
recomputed. -/
theorem Littlefoot.C2_reposition_skips_dom_writes (env : Littlefoot.LayoutEnv)
    (s : Littlefoot.PopoverStyleState) (current : Littlefoot.Position) :
    (current = (Littlefoot.getFootnotePosition env).1 →
      Littlefoot.repositionPopover env s current =
        (s, current, (Littlefoot.getFootnotePosition env).2)) ∧
    (Littlefoot.repositionPopover env s current).2.1 =
      (Littlefoot.getFootnotePosition env).1 ∧
    (Littlefoot.repositionPopover env s current).2.2 =
      (if (Littlefoot.getFootnotePosition env).1 = Littlefoot.Position.below
       then Littlefoot.roomBelow env else Littlefoot.roomAbove env) -
        env.marginSize - 15 ∧
    (current ≠ (Littlefoot.getFootnotePosition env).1 →
      (Littlefoot.repositionPopover env s current).1 =
        { classes := Littlefoot.addClass
            (Littlefoot.removeClass s.classes ("is-" ++ current.str))
            ("is-" ++ ((Littlefoot.getFootnotePosition env).1).str),
          transformOrigin := Littlefoot.transformOriginFor env
            (Littlefoot.getFootnotePosition env).1 }) := by
  refine ⟨?_, ?_, ?_, ?_⟩
  · intro h
    simp [Littlefoot.repositionPopover, h]
  · simp only [Littlefoot.repositionPopover]
    split <;> simp
  · rw [← Littlefoot.getFootnotePosition_snd]
    simp only [Littlefoot.repositionPopover]
    split <;> simp
  · intro h
    simp [Littlefoot.repositionPopover, h]

/-- Witness for C2: at the sample geometry the decision is `below`; calling
`repositionPopover` with previous position `below` returns the state
unchanged together with room 100 - 5 - 15 = 80. -/
theorem Littlefoot.C2_reposition_skips_dom_writes_witness :
    Littlefoot.repositionPopover Littlefoot.sampleLayoutEnv
      ⟨["is-below"], "50% 0"⟩ Littlefoot.Position.below =
      (⟨["is-below"], "50% 0"⟩, Littlefoot.Position.below, 80) := by
  have h : Littlefoot.Position.below =
      (Littlefoot.getFootnotePosition Littlefoot.sampleLayoutEnv).1 := by
    norm_num [Littlefoot.getFootnotePosition, Littlefoot.sampleLayoutEnv]
  have h2 := (Littlefoot.C2_reposition_skips_dom_writes Littlefoot.sampleLayoutEnv
    ⟨["is-below"], "50% 0"⟩ Littlefoot.Position.below).1 h
  rw [h2]
  norm_num [Littlefoot.getFootnotePosition, Littlefoot.sampleLayoutEnv]

/-- Removing a class twice equals removing it once. -/
theorem Littlefoot.removeClass_removeClass (cs : List String) (c : String) :
    Littlefoot.removeClass (Littlefoot.removeClass cs c) c =
      Littlefoot.removeClass cs c := by
  simp [Littlefoot.removeClass, List.filter_filter]

/-- `activate` leaves the button actively marked, whether or not a callback
was supplied. -/
theorem Littlefoot.isActive_activate (env : Littlefoot.FootnoteEnv)
    (cb : Bool) (s : Littlefoot.FootnoteState) :
    Littlefoot.isActive (Littlefoot.activate env cb s).1 = true := by
  cases cb <;>
    simp [Littlefoot.activate, Littlefoot.emit, Littlefoot.isActive,
      Littlefoot.hasClass_addClass_self]

/-- `dismiss` clears the button's active marker. -/
theorem Littlefoot.isActive_dismiss (s : Littlefoot.FootnoteState) :
    Littlefoot.isActive (Littlefoot.dismiss s) = false := by
  simp [Littlefoot.dismiss, Littlefoot.isActive,
    Littlefoot.hasClass_removeClass_self]

/-- `ready` does not change `isActive`. -/
theorem Littlefoot.isActive_ready (s : Littlefoot.FootnoteState) :
    Littlefoot.isActive (Littlefoot.ready s) = Littlefoot.isActive s := by
  simp only [Littlefoot.ready, Littlefoot.isActive]
  exact Littlefoot.hasClass_removeClass_ne _ (by decide)

/-- Over any interleaving of `activate`/`dismiss`/`ready`, `isActive` tracks
the most recent `activate`/`dismiss`. -/
theorem Littlefoot.isActive_run (env : Littlefoot.FootnoteEnv) (cb : Bool)
    (ops : List Littlefoot.FOp) :
    ∀ s : Littlefoot.FootnoteState,
      Littlefoot.isActive (Littlefoot.run env cb ops s) =
        Littlefoot.lastActivate ops (Littlefoot.isActive s) := by
  induction ops with
  | nil => intro s; rfl
  | cons op ops ih =>
    intro s
    cases op with
    | act =>
      have h1 : Littlefoot.run env cb (Littlefoot.FOp.act :: ops) s =
          Littlefoot.run env cb ops ((Littlefoot.activate env cb s).1) := rfl
      rw [h1, ih, Littlefoot.isActive_activate]
      rfl
    | dis =>
      have h1 : Littlefoot.run env cb (Littlefoot.FOp.dis :: ops) s =
          Littlefoot.run env cb ops (Littlefoot.dismiss s) := rfl
      rw [h1, ih, Littlefoot.isActive_dismiss]
      rfl
    | rdy =>
      have h1 : Littlefoot.run env cb (Littlefoot.FOp.rdy :: ops) s =
          Littlefoot.run env cb ops (Littlefoot.ready s) := rfl
      rw [h1, ih, Littlefoot.isActive_ready]
      rfl

/-- Whatever `closestBy` returns is an element of the chain satisfying the
predicate. -/
theorem Littlefoot.closestBy_eq_some (p : Littlefoot.DomElem → Bool) :
    ∀ (chain : List Littlefoot.DomElem) (e : Littlefoot.DomElem),
      Littlefoot.closestBy p chain = some e → e ∈ chain ∧ p e = true := by
  intro chain
  induction chain with
  | nil => intro e h; simp [Littlefoot.closestBy] at h
  | cons a rest ih =>
    intro e h
    simp only [Littlefoot.closestBy] at h
    by_cases hp : p a = true
    · rw [if_pos hp] at h
      cases h
      exact ⟨List.mem_cons_self a rest, hp⟩
    · rw [if_neg hp] at h
      obtain ⟨hm, hpe⟩ := ih e h
      exact ⟨List.mem_cons_of_mem a hm, hpe⟩

/-- C5: `dismiss()` does not detach the popover; the following `remove()`
detaches it and clears the changing flag so `isReady()` is true; a subsequent
`activate()` re-attaches the very same popover node (its identity is
unchanged) immediately after the button. -/
theorem Littlefoot.C5_dismiss_remove_activate (env : Littlefoot.FootnoteEnv)
    (cb : Bool) (s : Littlefoot.FootnoteState) :
    (Littlefoot.dismiss s).popoverAttached = s.popoverAttached ∧
    (Littlefoot.remove (Littlefoot.dismiss s)).popoverAttached = false ∧
    Littlefoot.isReady (Littlefoot.remove (Littlefoot.dismiss s)) = true ∧
    ((Littlefoot.activate env cb
      (Littlefoot.remove (Littlefoot.dismiss s))).1).popoverAttached = true ∧
    ((Littlefoot.activate env cb
      (Littlefoot.remove (Littlefoot.dismiss s))).1).popoverAfterButton = true ∧
    ((Littlefoot.activate env cb
      (Littlefoot.remove (Littlefoot.dismiss s))).1).popoverNode =
      s.popoverNode := by
  refine ⟨rfl, rfl, ?_, ?_, ?_, ?_⟩
  · simp [Littlefoot.isReady, Littlefoot.remove,
      Littlefoot.hasClass_removeClass_self]
  · cases cb <;> simp [Littlefoot.activate, Littlefoot.emit]
  · cases cb <;> simp [Littlefoot.activate, Littlefoot.emit]
  · cases cb <;> simp [Littlefoot.activate, Littlefoot.emit,
      Littlefoot.remove, Littlefoot.dismiss]

/-- C6: `isActive` reads only the button's active marker; `ready` never
changes it; hence over every interleaving of `activate`, `dismiss` and
`ready`, `isActive` equals whether the most recent `activate`/`dismiss` was
`activate`. -/
theorem Littlefoot.C6_isActive_tracks_last_toggle
    (env : Littlefoot.FootnoteEnv) (cb : Bool) (ops : List Littlefoot.FOp)
    (s : Littlefoot.FootnoteState) :
    Littlefoot.isActive (Littlefoot.run env cb ops s) =
      Littlefoot.lastActivate ops (Littlefoot.isActive s) ∧
    Littlefoot.isActive (Littlefoot.ready s) = Littlefoot.isActive s :=
  ⟨Littlefoot.isActive_run env cb ops s, Littlefoot.isActive_ready s⟩

/-- C7: when the popover is not attached to the document, `reposition` and
`resize` return the state entirely unchanged (and, being total functions,
raise no error). -/
theorem Littlefoot.C7_detached_noop (env : Littlefoot.FootnoteEnv)
    (s : Littlefoot.FootnoteState) (h : Littlefoot.isMounted s = false) :
    Littlefoot.reposition env s = s ∧ Littlefoot.resize env s = s := by
  simp [Littlefoot.reposition, Littlefoot.resize, h]

/-- Witness for C7: concrete detached state, concrete environment. -/
theorem Littlefoot.C7_detached_noop_witness :
    Littlefoot.reposition Littlefoot.sampleFootnoteEnv
        Littlefoot.sampleDetachedState = Littlefoot.sampleDetachedState ∧
      Littlefoot.resize Littlefoot.sampleFootnoteEnv
        Littlefoot.sampleDetachedState = Littlefoot.sampleDetachedState :=
  Littlefoot.C7_detached_noop Littlefoot.sampleFootnoteEnv
    Littlefoot.sampleDetachedState rfl

/-- C9: `activate` with a supplied callback performs exactly, in order:
`aria-expanded := "true"`; add the changing then the active class to the
button; insert the popover immediately after the button; set the popover's
max-width to the body width; measure and store the content max-height; and
finally invoke the callback synchronously (its invocation is part of the same
call's effect trace).  The resulting state shows each effect, and the popover
node identity is unchanged. -/
theorem Littlefoot.C9_activate_effect_order (env : Littlefoot.FootnoteEnv)
    (s : Littlefoot.FootnoteState) :
    (Littlefoot.activate env true s).2 =
      [Littlefoot.Effect.setButtonAttribute "aria-expanded" "true",
       Littlefoot.Effect.addButtonClass Littlefoot.CLASS_CHANGING,
       Littlefoot.Effect.addButtonClass Littlefoot.CLASS_ACTIVE,
       Littlefoot.Effect.insertPopoverAfterButton,
       Littlefoot.Effect.setPopoverMaxWidth env.bodyClientWidth,
       Littlefoot.Effect.measureMaxHeight env.contentMaxHeight,
       Littlefoot.Effect.invokeCallback] ∧
    ((Littlefoot.activate env true s).1).ariaExpanded = "true" ∧
    Littlefoot.hasClass ((Littlefoot.activate env true s).1).buttonClasses
      Littlefoot.CLASS_CHANGING = true ∧
    Littlefoot.hasClass ((Littlefoot.activate env true s).1).buttonClasses
      Littlefoot.CLASS_ACTIVE = true ∧
    ((Littlefoot.activate env true s).1).popoverAttached = true ∧
    ((Littlefoot.activate env true s).1).popoverAfterButton = true ∧
    ((Littlefoot.activate env true s).1).popoverMaxWidth =
      some env.bodyClientWidth ∧
    ((Littlefoot.activate env true s).1).maxHeight = env.contentMaxHeight ∧
    ((Littlefoot.activate env true s).1).popoverNode = s.popoverNode := by
  refine ⟨rfl, rfl, ?_, ?_, rfl, rfl, rfl, rfl, rfl⟩
  · show Littlefoot.hasClass
      (Littlefoot.addClass (Littlefoot.addClass s.buttonClasses
        Littlefoot.CLASS_CHANGING) Littlefoot.CLASS_ACTIVE)
      Littlefoot.CLASS_CHANGING = true
    rw [Littlefoot.hasClass_addClass_ne _ (by decide),
      Littlefoot.hasClass_addClass_self]
  · show Littlefoot.hasClass
      (Littlefoot.addClass (Littlefoot.addClass s.buttonClasses
        Littlefoot.CLASS_CHANGING) Littlefoot.CLASS_ACTIVE)
      Littlefoot.CLASS_ACTIVE = true
    rw [Littlefoot.hasClass_addClass_self]

/-- C10: `remove` is idempotent — a second `remove` on an already-detached
popover changes nothing — and after any `remove` the popover is detached and
the button's changing class is absent.  `remove` is a total function, so no
error is raised. -/
theorem Littlefoot.C10_remove_idempotent (s : Littlefoot.FootnoteState) :
    Littlefoot.remove (Littlefoot.remove s) = Littlefoot.remove s ∧
    (Littlefoot.remove s).popoverAttached = false ∧
    Littlefoot.hasClass (Littlefoot.remove s).buttonClasses
      Littlefoot.CLASS_CHANGING = false := by
  refine ⟨?_, rfl, Littlefoot.hasClass_removeClass_self _ _⟩
  cases s
  simp [Littlefoot.remove, Littlefoot.removeClass_removeClass]

/-- C8: for a `touchend`/`click` event, when the nearest ancestor carrying
the footnote-button marker has footnote id `id`, exactly `toggle id` fires
and the default action is suppressed; when no ancestor carries the button
marker and none carries the popover marker, exactly `touchOutside` fires;
when no ancestor carries the button marker but one carries the popover
marker, nothing fires.  Under the setup invariant that every button-marker
element carries an id, these cases are exhaustive. -/
theorem Littlefoot.C8_toggle_resolution (chain : List Littlefoot.DomElem)
    (wf : ∀ e ∈ chain, e.hasButtonMarker = true → e.footnoteId.isSome) :
    (∀ (b : Littlefoot.DomElem) (id : String),
      Littlefoot.closestBy (fun e => e.hasButtonMarker) chain = some b →
      b.footnoteId = some id →
      Littlefoot.toggleOnTouch chain = ([Littlefoot.RegAction.toggle id], true)) ∧
    (Littlefoot.closestBy (fun e => e.hasButtonMarker) chain = none →
      Littlefoot.closestBy (fun e => e.hasPopoverMarker) chain = none →
      Littlefoot.toggleOnTouch chain =
        ([Littlefoot.RegAction.touchOutside], false)) ∧
    (Littlefoot.closestBy (fun e => e.hasButtonMarker) chain = none →
      (Littlefoot.closestBy (fun e => e.hasPopoverMarker) chain).isSome →
      Littlefoot.toggleOnTouch chain = ([], false)) ∧
    (∀ b : Littlefoot.DomElem,
      Littlefoot.closestBy (fun e => e.hasButtonMarker) chain = some b →
      b.footnoteId.isSome) := by
  refine ⟨?_, ?_, ?_, ?_⟩
  · intro b id hb hid
    simp [Littlefoot.toggleOnTouch, hb, hid]
  · intro hb hp
    simp [Littlefoot.toggleOnTouch, hb, hp]
  · intro hb hp
    obtain ⟨v, hv⟩ := Option.isSome_iff_exists.mp hp
    simp [Littlefoot.toggleOnTouch, hb, hv]
  · intro b hb
    obtain ⟨hm, hpb⟩ := Littlefoot.closestBy_eq_some _ chain b hb
    exact wf b hm hpb

/-- Witness for C8: a target that is itself a button with footnote id `3`
resolves to exactly `toggle 3` with the default action suppressed. -/
theorem Littlefoot.C8_toggle_resolution_witness :
    Littlefoot.toggleOnTouch [⟨true, false, some "3"⟩] =
      ([Littlefoot.RegAction.toggle "3"], true) :=
  (Littlefoot.C8_toggle_resolution [⟨true, false, some "3"⟩]
    (by decide)).1 ⟨true, false, some "3"⟩ "3" rfl rfl

/-- C3 evaluation: two scroll events inside one 16ms window schedule a
trailing throttled call; teardown (`controller.abort()`) then runs, but when
the throttle timer fires the pending trailing call still invokes
`repositionAll` — one registry invocation happens after teardown, so the
pending trailing call is not discarded as the claim requires. -/
theorem Littlefoot.C3_trailing_call_survives_teardown :
    (Littlefoot.runSystem
      [Littlefoot.SysEvent.scroll, Littlefoot.SysEvent.scroll,
       Littlefoot.SysEvent.teardown,
       Littlefoot.SysEvent.timerFire]).callsAfterTeardown =
      ["repositionAll"] := by
  rfl
